import Mathlib

/-!
Verification development for the biojs-io-biom data model
(src/src/biojs-io-biom.js). The file contains two historical versions of
the `Biom` class:

* Version 1 (lines 84-472): a constructor that routes every field through
  a validating setter (`this.x = v` invokes `set x(v)`); a throw inside a
  setter aborts construction with no instance produced. Every field has a
  getter and a validating setter.
* Version 2 (lines 522-694): a constructor that assigns the backing
  fields directly (`this._x = v`) with no validation; only `id` has a
  setter, every other field is read-only after construction. The default
  for `date` is the numeric `Date.now()` timestamp.

JavaScript values are embedded as the inductive type `Value` (null,
boolean, number, string, array). JavaScript numbers are modelled as
rationals, which is adequate for the validators in this module: the only
numeric test performed is `Number.isInteger(x) && x >= 0`. Setters are
embedded as functions returning the resulting object paired with an
optional error, modelling `try { obj.x = v } catch`: on a throw the
object is unchanged. The clock (`new Date().toISOString()` in version 1,
`Date.now()` in version 2) is passed as an explicit parameter.
-/

namespace BiojsIoBiom

/-- Embedded JavaScript value: null, boolean, number (as a rational),
string, or array. -/
inductive Value : Type where
  | null : Value
  | bool (b : Bool) : Value
  | num (q : Rat) : Value
  | str (s : String) : Value
  | arr (elems : List Value) : Value

mutual

/-- Decidable equality on embedded values. -/
def Value.decEq : (a b : Value) → Decidable (a = b)
  | .null, .null => .isTrue rfl
  | .null, .bool _ => .isFalse nofun
  | .null, .num _ => .isFalse nofun
  | .null, .str _ => .isFalse nofun
  | .null, .arr _ => .isFalse nofun
  | .bool _, .null => .isFalse nofun
  | .bool a, .bool b =>
    if h : a = b then .isTrue (by rw [h]) else .isFalse (fun hc => h (Value.bool.inj hc))
  | .bool _, .num _ => .isFalse nofun
  | .bool _, .str _ => .isFalse nofun
  | .bool _, .arr _ => .isFalse nofun
  | .num _, .null => .isFalse nofun
  | .num _, .bool _ => .isFalse nofun
  | .num a, .num b =>
    if h : a = b then .isTrue (by rw [h]) else .isFalse (fun hc => h (Value.num.inj hc))
  | .num _, .str _ => .isFalse nofun
  | .num _, .arr _ => .isFalse nofun
  | .str _, .null => .isFalse nofun
  | .str _, .bool _ => .isFalse nofun
  | .str _, .num _ => .isFalse nofun
  | .str a, .str b =>
    if h : a = b then .isTrue (by rw [h]) else .isFalse (fun hc => h (Value.str.inj hc))
  | .str _, .arr _ => .isFalse nofun
  | .arr _, .null => .isFalse nofun
  | .arr _, .bool _ => .isFalse nofun
  | .arr _, .num _ => .isFalse nofun
  | .arr _, .str _ => .isFalse nofun
  | .arr xs, .arr ys =>
    match Value.decEqList xs ys with
    | .isTrue h => .isTrue (by rw [h])
    | .isFalse h => .isFalse (fun hc => h (Value.arr.inj hc))

/-- Decidable equality on lists of embedded values. -/
def Value.decEqList : (xs ys : List Value) → Decidable (xs = ys)
  | [], [] => .isTrue rfl
  | [], _ :: _ => .isFalse nofun
  | _ :: _, [] => .isFalse nofun
  | x :: xs, y :: ys =>
    match Value.decEq x y, Value.decEqList xs ys with
    | .isTrue h1, .isTrue h2 => .isTrue (by rw [h1, h2])
    | .isFalse h1, _ => .isFalse (fun hc => h1 (List.cons.inj hc).1)
    | _, .isFalse h2 => .isFalse (fun hc => h2 (List.cons.inj hc).2)

end

instance : DecidableEq Value := Value.decEq

/-- Embeds the JS test `typeof v === "string"`. -/
def Value.isStringV : Value → Bool
  | .str _ => true
  | _ => false

/-- Embeds the JS test
`Object.prototype.toString.call(v) === "[object Array]"`. -/
def Value.isArrayV : Value → Bool
  | .arr _ => true
  | _ => false

/-- Embeds `Number.isInteger(v)`: true exactly for numbers with an
integral value (false for every non-number). -/
def Value.numberIsInteger : Value → Bool
  | .num q => q.den == 1
  | _ => false

/-- Embeds the JS comparison `v < 0` as used in the shape setter, where
it is only ever reached on values that passed `Number.isInteger`. -/
def Value.numLT0 : Value → Bool
  | .num q => decide (q < 0)
  | _ => false

/-- Error taxonomy of the module. The source throws `TypeError` for
structural-type failures and `Error` for the finer rules; the spec names
the latter VocabularyViolation, ArityViolation and DomainViolation
according to the message. Each constructor carries the thrown message. -/
inductive BiomError : Type where
  | typeMismatch (msg : String) : BiomError
  | vocabularyViolation (msg : String) : BiomError
  | arityViolation (msg : String) : BiomError
  | domainViolation (msg : String) : BiomError
  deriving DecidableEq

/-- Source constant VERSION. -/
def VERSION : String := "0.1.0"

/-- Source constant TYPE_CV: controlled vocabulary for the type field. -/
def TYPE_CV : List String :=
  ["OTU table", "Pathway table", "Function table", "Ortholog table",
   "Gene table", "Metabolite table", "Taxon table"]

/-- Source constant MATRIX_TYPE_CV. -/
def MATRIX_TYPE_CV : List String := ["sparse", "dense"]

/-- Source constant MATRIX_ELEMENT_TYPE_CV. -/
def MATRIX_ELEMENT_TYPE_CV : List String := ["int", "float", "unicode"]

/-- The in-memory Biom object of version 1: the thirteen backing fields
(`this._id` and so on), each holding an arbitrary JS value. -/
structure Biom : Type where
  id : Value
  format : Value
  format_url : Value
  type : Value
  generated_by : Value
  date : Value
  rows : Value
  columns : Value
  matrix_type : Value
  matrix_element_type : Value
  shape : Value
  data : Value
  comment : Value
  deriving DecidableEq

/-- Guard of version 1 `set id`: throw TypeError unless the value is a
string or null. -/
def validate_id : Value → Option BiomError
  | .null => none
  | .str _ => none
  | _ => some (.typeMismatch "id must be string or null")

/-- Guard of version 1 `set format`: throw TypeError unless string. -/
def validate_format : Value → Option BiomError
  | .str _ => none
  | _ => some (.typeMismatch "format must be string")

/-- Guard of version 1 `set format_url`: throw TypeError unless string. -/
def validate_format_url : Value → Option BiomError
  | .str _ => none
  | _ => some (.typeMismatch
      "format_url must be string (representing a static URL)")

/-- Guard of version 1 `set type`: throw TypeError unless string, then
throw Error unless the string occurs in TYPE_CV
(`TYPE_CV.indexOf(type) === -1`). -/
def validate_type : Value → Option BiomError
  | .str s =>
    if TYPE_CV.contains s then none
    else some (.vocabularyViolation
        "type must be part of the controlled vocabulary")
  | _ => some (.typeMismatch
      "type must be string (part of the controlled vocabulary)")

/-- Guard of version 1 `set generated_by`: throw TypeError unless
string. -/
def validate_generated_by : Value → Option BiomError
  | .str _ => none
  | _ => some (.typeMismatch "generated_by must be string")

/-- Guard of version 1 `set date`: throw TypeError unless string. -/
def validate_date : Value → Option BiomError
  | .str _ => none
  | _ => some (.typeMismatch "date must be string (ISO 8601 format)")

/-- Guard of version 1 `set rows`: throw TypeError unless an Array. -/
def validate_rows : Value → Option BiomError
  | .arr _ => none
  | _ => some (.typeMismatch "rows must be an Array")

/-- Guard of version 1 `set columns`: throw TypeError unless an Array. -/
def validate_columns : Value → Option BiomError
  | .arr _ => none
  | _ => some (.typeMismatch "columns must be an Array")

/-- Guard of version 1 `set matrix_type`: throw TypeError unless string,
then throw Error unless the string occurs in MATRIX_TYPE_CV. -/
def validate_matrix_type : Value → Option BiomError
  | .str s =>
    if MATRIX_TYPE_CV.contains s then none
    else some (.vocabularyViolation
        "matrix_type must be part of the controlled vocabulary: \x22dense\x22 or \x22sparse\x22")
  | _ => some (.typeMismatch
      "matrix_type must be string (part of the controlled vocabulary: \x22dense\x22 or \x22sparse\x22)")

/-- Guard of version 1 `set matrix_element_type`: throw TypeError unless
string, then throw Error unless the string occurs in
MATRIX_ELEMENT_TYPE_CV. -/
def validate_matrix_element_type : Value → Option BiomError
  | .str s =>
    if MATRIX_ELEMENT_TYPE_CV.contains s then none
    else some (.vocabularyViolation
        "matrix_element_type must be part of the controlled vocabulary: \x22int\x22, \x22float\x22 or \x22unicode\x22")
  | _ => some (.typeMismatch
      "matrix_element_type must be string (part of the controlled vocabulary: \x22int\x22, \x22float\x22 or \x22unicode\x22)")

/-- Guard of version 1 `set shape`: throw TypeError unless an Array,
throw Error unless `shape.length === 2`, throw Error if
`!Number.isInteger(shape[0]) || shape[0] < 0 ||
!Number.isInteger(shape[1]) || shape[1] < 0`. -/
def validate_shape : Value → Option BiomError
  | .arr xs =>
    match xs with
    | [a, b] =>
      if !a.numberIsInteger || a.numLT0 || !b.numberIsInteger || b.numLT0 then
        some (.domainViolation "shape does not contain non-negative integers")
      else none
    | _ => some (.arityViolation "shape does not contain exactly two elements")
  | _ => some (.typeMismatch
      "shape must be an Array containing exactly two non-negative integers")

/-- Guard of version 1 `set data`: throw TypeError unless an Array. -/
def validate_data : Value → Option BiomError
  | .arr _ => none
  | _ => some (.typeMismatch "data must be an Array")

/-- Guard of version 1 `set comment`: throw TypeError unless the value
is a string or null. -/
def validate_comment : Value → Option BiomError
  | .null => none
  | .str _ => none
  | _ => some (.typeMismatch "comment must be string or null")

/-- Names of the thirteen settable fields of version 1. -/
inductive Field : Type where
  | id | format | format_url | type | generated_by | date
  | rows | columns | matrix_type | matrix_element_type
  | shape | data | comment
  deriving DecidableEq

/-- The guard that field's version 1 setter runs on a candidate value. -/
def validateField : Field → Value → Option BiomError
  | .id => validate_id
  | .format => validate_format
  | .format_url => validate_format_url
  | .type => validate_type
  | .generated_by => validate_generated_by
  | .date => validate_date
  | .rows => validate_rows
  | .columns => validate_columns
  | .matrix_type => validate_matrix_type
  | .matrix_element_type => validate_matrix_element_type
  | .shape => validate_shape
  | .data => validate_data
  | .comment => validate_comment

/-- Read accessor: version 1 getters return the backing field. -/
def getField (f : Field) (b : Biom) : Value :=
  match f with
  | .id => b.id
  | .format => b.format
  | .format_url => b.format_url
  | .type => b.type
  | .generated_by => b.generated_by
  | .date => b.date
  | .rows => b.rows
  | .columns => b.columns
  | .matrix_type => b.matrix_type
  | .matrix_element_type => b.matrix_element_type
  | .shape => b.shape
  | .data => b.data
  | .comment => b.comment

/-- Installs a value in a backing field (the assignment `this._x = v`
performed at the end of each version 1 setter). -/
def updateField (f : Field) (b : Biom) (v : Value) : Biom :=
  match f with
  | .id => { b with id := v }
  | .format => { b with format := v }
  | .format_url => { b with format_url := v }
  | .type => { b with type := v }
  | .generated_by => { b with generated_by := v }
  | .date => { b with date := v }
  | .rows => { b with rows := v }
  | .columns => { b with columns := v }
  | .matrix_type => { b with matrix_type := v }
  | .matrix_element_type => { b with matrix_element_type := v }
  | .shape => { b with shape := v }
  | .data => { b with data := v }
  | .comment => { b with comment := v }

/-- A version 1 setter invocation `obj.f = v` observed through
`try catch`: the guard runs first; on a throw the object is unchanged
and the error is reported, otherwise the value is installed. -/
def setField (f : Field) (b : Biom) (v : Value) : Biom × Option BiomError :=
  match validateField f v with
  | some e => (b, some e)
  | none => (updateField f b v, none)

/-- Constructor configuration object: each of the recognized options may
be present (`some v`) or absent (`none`, which in JS destructuring
triggers the declared default). -/
structure BiomConfig : Type where
  id : Option Value := none
  format : Option Value := none
  format_url : Option Value := none
  type : Option Value := none
  generated_by : Option Value := none
  date : Option Value := none
  rows : Option Value := none
  columns : Option Value := none
  matrix_type : Option Value := none
  matrix_element_type : Option Value := none
  shape : Option Value := none
  data : Option Value := none
  comment : Option Value := none
  deriving DecidableEq

/-- The option of the configuration that feeds a given field. -/
def cfgField (f : Field) (cfg : BiomConfig) : Option Value :=
  match f with
  | .id => cfg.id
  | .format => cfg.format
  | .format_url => cfg.format_url
  | .type => cfg.type
  | .generated_by => cfg.generated_by
  | .date => cfg.date
  | .rows => cfg.rows
  | .columns => cfg.columns
  | .matrix_type => cfg.matrix_type
  | .matrix_element_type => cfg.matrix_element_type
  | .shape => cfg.shape
  | .data => cfg.data
  | .comment => cfg.comment

/-- The DEFAULT_BIOM constant of the source (both versions declare the
same values; version 2 omits the comment entry). The date entry is null
and is replaced in the version 1 constructor body. -/
def defaultFor (f : Field) : Value :=
  match f with
  | .id => .null
  | .format => .str "Biological Observation Matrix 1.0.0"
  | .format_url => .str "http://biom-format.org"
  | .type => .str "OTU table"
  | .generated_by => .str "biojs-io-biom v0.1.0"
  | .date => .null
  | .rows => .arr []
  | .columns => .arr []
  | .matrix_type => .str "sparse"
  | .matrix_element_type => .str "float"
  | .shape => .arr [.num 0, .num 0]
  | .data => .arr []
  | .comment => .null

/-- The value the version 1 constructor assigns to a field: the supplied
option, else the DEFAULT_BIOM default; for date, a null value (defaulted
or explicitly supplied) is replaced by the clock's ISO string
(`if (_date === null) _date = new Date().toISOString()`). -/
def effectiveValue (cfg : BiomConfig) (nowISO : String) (f : Field) : Value :=
  match f with
  | .date =>
    match cfg.date.getD Value.null with
    | .null => .str nowISO
    | d => d
  | _ => (cfgField f cfg).getD (defaultFor f)

/-- The order in which the version 1 constructor body assigns the
fields (source lines 117-132). -/
def FIELD_ORDER : List Field :=
  [.id, .format, .format_url, .type, .generated_by, .date, .rows,
   .columns, .matrix_type, .matrix_element_type, .shape, .data, .comment]

/-- Runs the setter guards of the listed fields in order on their
effective values, reporting the first thrown error. -/
def checkFields (cfg : BiomConfig) (nowISO : String) :
    List Field → Option BiomError
  | [] => none
  | f :: fs =>
    match validateField f (effectiveValue cfg nowISO f) with
    | some e => some e
    | none => checkFields cfg nowISO fs

/-- The object the version 1 constructor produces when every setter
guard passes. -/
def buildAll (cfg : BiomConfig) (nowISO : String) : Biom :=
  { id := effectiveValue cfg nowISO .id
    format := effectiveValue cfg nowISO .format
    format_url := effectiveValue cfg nowISO .format_url
    type := effectiveValue cfg nowISO .type
    generated_by := effectiveValue cfg nowISO .generated_by
    date := effectiveValue cfg nowISO .date
    rows := effectiveValue cfg nowISO .rows
    columns := effectiveValue cfg nowISO .columns
    matrix_type := effectiveValue cfg nowISO .matrix_type
    matrix_element_type := effectiveValue cfg nowISO .matrix_element_type
    shape := effectiveValue cfg nowISO .shape
    data := effectiveValue cfg nowISO .data
    comment := effectiveValue cfg nowISO .comment }

/-- Version 1 constructor. Each `this.x = v` in the body invokes the
validating setter for x, in source order; the first throw aborts
construction with that error and no instance escapes (a partially
initialized `this` is discarded by the throw). On success the fully
assigned object is returned. `nowISO` is the string the clock call
`new Date().toISOString()` returns during this construction. -/
def construct1 (cfg : BiomConfig) (nowISO : String) : Except BiomError Biom :=
  match checkFields cfg nowISO FIELD_ORDER with
  | some e => Except.error e
  | none => Except.ok (buildAll cfg nowISO)

/-- The in-memory Biom object of version 2: twelve backing fields, no
comment field. -/
structure Biom2 : Type where
  id : Value
  format : Value
  format_url : Value
  type : Value
  generated_by : Value
  date : Value
  rows : Value
  columns : Value
  matrix_type : Value
  matrix_element_type : Value
  shape : Value
  data : Value
  deriving DecidableEq

/-- Constructor configuration object of version 2 (no comment option). -/
structure BiomConfig2 : Type where
  id : Option Value := none
  format : Option Value := none
  format_url : Option Value := none
  type : Option Value := none
  generated_by : Option Value := none
  date : Option Value := none
  rows : Option Value := none
  columns : Option Value := none
  matrix_type : Option Value := none
  matrix_element_type : Option Value := none
  shape : Option Value := none
  data : Option Value := none
  deriving DecidableEq

/-- Version 2 constructor (source lines 538-565): assigns every backing
field directly (`this._id = _id` and so on) with no validation, so it
always produces an instance. The destructuring default for date is
`Date.now()`, a number of milliseconds, passed here as `nowMs`. -/
def construct2 (cfg : BiomConfig2) (nowMs : Int) : Biom2 :=
  { id := cfg.id.getD .null
    format := cfg.format.getD (defaultFor .format)
    format_url := cfg.format_url.getD (defaultFor .format_url)
    type := cfg.type.getD (defaultFor .type)
    generated_by := cfg.generated_by.getD (defaultFor .generated_by)
    date := cfg.date.getD (.num (nowMs : Rat))
    rows := cfg.rows.getD (defaultFor .rows)
    columns := cfg.columns.getD (defaultFor .columns)
    matrix_type := cfg.matrix_type.getD (defaultFor .matrix_type)
    matrix_element_type :=
      cfg.matrix_element_type.getD (defaultFor .matrix_element_type)
    shape := cfg.shape.getD (defaultFor .shape)
    data := cfg.data.getD (defaultFor .data) }

/-- Version 2 `set id` (the only setter of version 2), observed through
`try catch` like `setField`. -/
def setId2 (b : Biom2) (v : Value) : Biom2 × Option BiomError :=
  match validate_id v with
  | some e => (b, some e)
  | none => ({ b with id := v }, none)

/-- States of a version 1 object reachable by a successful construction
followed by any sequence of setter invocations, each either succeeding
or throwing (a throw leaves the object as it was). -/
inductive Reachable1 : Biom → Prop where
  | constructed (cfg : BiomConfig) (nowISO : String) (b : Biom) :
      construct1 cfg nowISO = Except.ok b → Reachable1 b
  | assigned (b : Biom) (f : Field) (v : Value) :
      Reachable1 b → Reachable1 (setField f b v).1

instance instDecEqExcept {ε α : Type} [DecidableEq ε] [DecidableEq α] :
    DecidableEq (Except ε α) := fun a b =>
  match a, b with
  | .error e1, .error e2 =>
    if h : e1 = e2 then .isTrue (by rw [h])
    else .isFalse (fun hc => h (Except.error.inj hc))
  | .ok a1, .ok a2 =>
    if h : a1 = a2 then .isTrue (by rw [h])
    else .isFalse (fun hc => h (Except.ok.inj hc))
  | .error _, .ok _ => .isFalse nofun
  | .ok _, .error _ => .isFalse nofun

/-- Reading a field of the fully built object yields the effective
constructor value of that field. -/
theorem getField_buildAll (cfg : BiomConfig) (nowISO : String) (f : Field) :
    getField f (buildAll cfg nowISO) = effectiveValue cfg nowISO f := by
  cases f <;> rfl

/-- Installing a value and reading the same field gives it back. -/
theorem getField_update_self (f : Field) (b : Biom) (v : Value) :
    getField f (updateField f b v) = v := by
  cases f <;> rfl

/-- Installing a value leaves every other field untouched. -/
theorem getField_update_ne (f g : Field) (b : Biom) (v : Value)
    (h : f ≠ g) : getField f (updateField g b v) = getField f b := by
  cases f <;> cases g <;> first | rfl | exact absurd rfl h

/-- Every field occurs in the constructor's assignment order. -/
theorem field_mem_order (f : Field) : f ∈ FIELD_ORDER := by
  cases f <;> decide

/-- If every listed guard passes, the guard of each listed field passes
on its effective value. -/
theorem checkFields_none (cfg : BiomConfig) (nowISO : String) :
    ∀ (l : List Field), checkFields cfg nowISO l = none →
      ∀ f ∈ l, validateField f (effectiveValue cfg nowISO f) = none := by
  intro l
  induction l with
  | nil => intro _ f hf; exact absurd hf (List.not_mem_nil f)
  | cons f0 fs ih =>
    intro h f hf
    cases hv : validateField f0 (effectiveValue cfg nowISO f0) with
    | some e => simp only [checkFields, hv] at h; exact Option.noConfusion h
    | none =>
      simp only [checkFields, hv] at h
      cases List.mem_cons.mp hf with
      | inl heq => rw [heq]; exact hv
      | inr hmem => exact ih h f hmem

/-- Conversely, if each listed field's guard passes on its effective
value, the whole sequence of guards passes. -/
theorem checkFields_none_of (cfg : BiomConfig) (nowISO : String) :
    ∀ (l : List Field),
      (∀ f ∈ l, validateField f (effectiveValue cfg nowISO f) = none) →
      checkFields cfg nowISO l = none := by
  intro l
  induction l with
  | nil => intro _; rfl
  | cons f0 fs ih =>
    intro h
    have hv : validateField f0 (effectiveValue cfg nowISO f0) = none :=
      h f0 (List.mem_cons_self f0 fs)
    simp only [checkFields, hv]
    exact ih (fun f hf => h f (List.mem_cons_of_mem f0 hf))

/-- If the guard of some listed field rejects its effective value, the
sequence of guards reports an error, and the reported error is the
error of a violated field. -/
theorem checkFields_some (cfg : BiomConfig) (nowISO : String) :
    ∀ (l : List Field) (f : Field) (e : BiomError), f ∈ l →
      validateField f (effectiveValue cfg nowISO f) = some e →
      ∃ g e2, checkFields cfg nowISO l = some e2 ∧
        validateField g (effectiveValue cfg nowISO g) = some e2 := by
  intro l
  induction l with
  | nil => intro f e hf _; exact absurd hf (List.not_mem_nil f)
  | cons f0 fs ih =>
    intro f e hf he
    cases hv : validateField f0 (effectiveValue cfg nowISO f0) with
    | some e0 =>
      refine ⟨f0, e0, ?_, hv⟩
      simp only [checkFields, hv]
    | none =>
      have hmem : f ∈ fs := by
        cases List.mem_cons.mp hf with
        | inl heq => rw [heq] at he; rw [hv] at he; exact Option.noConfusion he
        | inr hmem => exact hmem
      obtain ⟨g, e2, h1, h2⟩ := ih f e hmem he
      refine ⟨g, e2, ?_, h2⟩
      simp only [checkFields, hv]
      exact h1

/-- A passing type guard means a string belonging to TYPE_CV. -/
theorem validate_type_none (v : Value) (h : validate_type v = none) :
    ∃ s, v = Value.str s ∧ s ∈ TYPE_CV := by
  cases v with
  | str s =>
    cases hcc : TYPE_CV.contains s with
    | true => exact ⟨s, rfl, List.elem_iff.mp hcc⟩
    | false => simp [validate_type, hcc] at h; exact ⟨s, rfl, h⟩
  | null => simp [validate_type] at h
  | bool b => simp [validate_type] at h
  | num q => simp [validate_type] at h
  | arr xs => simp [validate_type] at h

/-- A passing matrix_type guard means a string in MATRIX_TYPE_CV. -/
theorem validate_matrix_type_none (v : Value)
    (h : validate_matrix_type v = none) :
    ∃ s, v = Value.str s ∧ s ∈ MATRIX_TYPE_CV := by
  cases v with
  | str s =>
    cases hcc : MATRIX_TYPE_CV.contains s with
    | true => exact ⟨s, rfl, List.elem_iff.mp hcc⟩
    | false => simp [validate_matrix_type, hcc] at h; exact ⟨s, rfl, h⟩
  | null => simp [validate_matrix_type] at h
  | bool b => simp [validate_matrix_type] at h
  | num q => simp [validate_matrix_type] at h
  | arr xs => simp [validate_matrix_type] at h

/-- A passing matrix_element_type guard means a string in
MATRIX_ELEMENT_TYPE_CV. -/
theorem validate_matrix_element_type_none (v : Value)
    (h : validate_matrix_element_type v = none) :
    ∃ s, v = Value.str s ∧ s ∈ MATRIX_ELEMENT_TYPE_CV := by
  cases v with
  | str s =>
    cases hcc : MATRIX_ELEMENT_TYPE_CV.contains s with
    | true => exact ⟨s, rfl, List.elem_iff.mp hcc⟩
    | false => simp [validate_matrix_element_type, hcc] at h; exact ⟨s, rfl, h⟩
  | null => simp [validate_matrix_element_type] at h
  | bool b => simp [validate_matrix_element_type] at h
  | num q => simp [validate_matrix_element_type] at h
  | arr xs => simp [validate_matrix_element_type] at h

/-- A passing data guard means an array. -/
theorem validate_data_none (v : Value) (h : validate_data v = none) :
    ∃ xs, v = Value.arr xs := by
  cases v with
  | arr xs => exact ⟨xs, rfl⟩
  | null => simp [validate_data] at h
  | bool b => simp [validate_data] at h
  | num q => simp [validate_data] at h
  | str s => simp [validate_data] at h

/-- A successful version 1 construction means every guard passed and
the result is the fully built object. -/
theorem construct1_ok (cfg : BiomConfig) (nowISO : String) (b : Biom)
    (hc : construct1 cfg nowISO = Except.ok b) :
    checkFields cfg nowISO FIELD_ORDER = none ∧ b = buildAll cfg nowISO := by
  unfold construct1 at hc
  cases hcf : checkFields cfg nowISO FIELD_ORDER with
  | some e => rw [hcf] at hc; exact Except.noConfusion hc
  | none =>
    rw [hcf] at hc
    exact ⟨rfl, (Except.ok.inj hc).symm⟩

/-- Core invariant of version 1: in every reachable state, every field
satisfies its own validator. Construction validates every field in
assignment order, and a setter either rejects (leaving the state
unchanged) or installs a value its guard accepted. -/
theorem reachable1_valid (b : Biom) (h : Reachable1 b) :
    ∀ f, validateField f (getField f b) = none := by
  induction h with
  | constructed cfg nowISO b0 hc =>
    intro f
    obtain ⟨hnone, hb⟩ := construct1_ok cfg nowISO b0 hc
    rw [hb, getField_buildAll]
    exact checkFields_none cfg nowISO FIELD_ORDER hnone f (field_mem_order f)
  | assigned b0 f0 v hr ih =>
    intro f
    cases hv : validateField f0 v with
    | some e => simpa [setField, hv] using ih f
    | none =>
      by_cases hf : f = f0
      · subst hf
        simp only [setField, hv]
        rw [getField_update_self]
        exact hv
      · simp only [setField, hv]
        rw [getField_update_ne f f0 b0 v hf]
        exact ih f

/-- Spec-side predicate: a non-negative integer element, as the spec's
shape rule words it ("both elements are non-negative integers"). -/
def Value.isNonNegativeInteger : Value → Bool
  | .num q => q.den == 1 && decide (0 ≤ q)
  | _ => false

/-- Shape rule as the spec words it: TypeMismatch unless the value is a
sequence; ArityViolation unless it has exactly two elements;
DomainViolation unless both elements are non-negative integers. -/
def shapeFieldRule (v : Value) : Option BiomError :=
  match v with
  | .arr xs =>
    if xs.length ≠ 2 then
      some (.arityViolation "shape does not contain exactly two elements")
    else if xs.all Value.isNonNegativeInteger then none
    else some (.domainViolation "shape does not contain non-negative integers")
  | _ => some (.typeMismatch
      "shape must be an Array containing exactly two non-negative integers")

/-- Enum-field rule as the spec words it: TypeMismatch unless textual,
then VocabularyViolation unless the value is a member of the field's
fixed controlled vocabulary. -/
def enumFieldRule (cv : List String) (tmsg vmsg : String) :
    Value → Option BiomError
  | .str s =>
    if s ∈ cv then none else some (.vocabularyViolation vmsg)
  | _ => some (.typeMismatch tmsg)

/-- The source's failure test on one shape element agrees with the
negation of the spec-side non-negative-integer predicate. -/
theorem elem_fail_eq (a : Value) :
    (!a.numberIsInteger || a.numLT0) = !a.isNonNegativeInteger := by
  cases a with
  | num q =>
    simp only [Value.numberIsInteger, Value.numLT0, Value.isNonNegativeInteger]
    by_cases hd : q.den = 1
    · by_cases hq : q < 0
      · simp [hd, hq, not_le.mpr hq]
      · simp [hd, hq, not_lt.mp hq]
    · have hb : (q.den == 1) = false := by simpa using hd
      simp [hb]
  | null => rfl
  | bool b => rfl
  | str s => rfl
  | arr xs => rfl

/-- Bool bookkeeping: a four-way disjunction of failure bits equals the
negated conjunction of the two per-element predicates. -/
theorem or4_eq (x1 x2 x3 x4 y1 y2 : Bool) (h1 : (x1 || x2) = !y1)
    (h2 : (x3 || x4) = !y2) : (x1 || x2 || x3 || x4) = !(y1 && y2) := by
  cases x1 <;> cases x2 <;> cases x3 <;> cases x4 <;> simp_all

/-- The version 1 shape guard agrees with the spec-side shape rule. -/
theorem validate_shape_eq (v : Value) : validate_shape v = shapeFieldRule v := by
  cases v with
  | arr xs =>
    match xs with
    | [] => simp [validate_shape, shapeFieldRule]
    | [a] => simp [validate_shape, shapeFieldRule]
    | [a, b] =>
      simp only [validate_shape, shapeFieldRule, List.all_cons, List.all_nil,
        Bool.and_true, List.length_cons, List.length_nil]
      rw [or4_eq (!a.numberIsInteger) a.numLT0 (!b.numberIsInteger) b.numLT0
        a.isNonNegativeInteger b.isNonNegativeInteger (elem_fail_eq a)
        (elem_fail_eq b)]
      cases hab : (a.isNonNegativeInteger && b.isNonNegativeInteger) <;> simp
    | a :: b :: c :: rest => simp [validate_shape, shapeFieldRule]
  | null => rfl
  | bool b => rfl
  | num q => rfl
  | str s => rfl

/-- The version 1 type guard agrees with the spec-side enum rule at
TYPE_CV. -/
theorem validate_type_eq (v : Value) :
    validate_type v = enumFieldRule TYPE_CV
      "type must be string (part of the controlled vocabulary)"
      "type must be part of the controlled vocabulary" v := by
  cases v with
  | str s =>
    simp only [validate_type, enumFieldRule]
    by_cases hs : s ∈ TYPE_CV
    · simp [hs, List.elem_iff.mpr hs]
    · have hc : TYPE_CV.contains s = false := by
        cases hcc : TYPE_CV.contains s with
        | true => exact absurd (List.elem_iff.mp hcc) hs
        | false => rfl
      simp [hs, hc]
  | null => rfl
  | bool b => rfl
  | num q => rfl
  | arr xs => rfl

/-- The version 1 matrix_type guard agrees with the spec-side enum rule
at MATRIX_TYPE_CV. -/
theorem validate_matrix_type_eq (v : Value) :
    validate_matrix_type v = enumFieldRule MATRIX_TYPE_CV
      "matrix_type must be string (part of the controlled vocabulary: \x22dense\x22 or \x22sparse\x22)"
      "matrix_type must be part of the controlled vocabulary: \x22dense\x22 or \x22sparse\x22" v := by
  cases v with
  | str s =>
    simp only [validate_matrix_type, enumFieldRule]
    by_cases hs : s ∈ MATRIX_TYPE_CV
    · simp [hs, List.elem_iff.mpr hs]
    · have hc : MATRIX_TYPE_CV.contains s = false := by
        cases hcc : MATRIX_TYPE_CV.contains s with
        | true => exact absurd (List.elem_iff.mp hcc) hs
        | false => rfl
      simp [hs, hc]
  | null => rfl
  | bool b => rfl
  | num q => rfl
  | arr xs => rfl

/-- The version 1 matrix_element_type guard agrees with the spec-side
enum rule at MATRIX_ELEMENT_TYPE_CV. -/
theorem validate_matrix_element_type_eq (v : Value) :
    validate_matrix_element_type v = enumFieldRule MATRIX_ELEMENT_TYPE_CV
      "matrix_element_type must be string (part of the controlled vocabulary: \x22int\x22, \x22float\x22 or \x22unicode\x22)"
      "matrix_element_type must be part of the controlled vocabulary: \x22int\x22, \x22float\x22 or \x22unicode\x22" v := by
  cases v with
  | str s =>
    simp only [validate_matrix_element_type, enumFieldRule]
    by_cases hs : s ∈ MATRIX_ELEMENT_TYPE_CV
    · simp [hs, List.elem_iff.mpr hs]
    · have hc : MATRIX_ELEMENT_TYPE_CV.contains s = false := by
        cases hcc : MATRIX_ELEMENT_TYPE_CV.contains s with
        | true => exact absurd (List.elem_iff.mp hcc) hs
        | false => rfl
      simp [hs, hc]
  | null => rfl
  | bool b => rfl
  | num q => rfl
  | arr xs => rfl

/-- C3: assigning a value v to the shape field fails with TypeMismatch
whenever v is not a sequence, with ArityViolation whenever v is a
sequence whose length is not exactly two, with DomainViolation whenever
v is a two-element sequence in which some element is not a non-negative
integer, and succeeds storing v in all remaining cases — the setter's
outcome is exactly the spec's shape rule, a rejection leaves the object
unchanged, and the constructor (which runs the same setter) fails on a
supplied shape value in exactly the same cases. -/
theorem shape_assignment_contract (b : Biom) (v : Value) (nowISO : String) :
    setField Field.shape b v =
      (if (shapeFieldRule v).isSome then b else { b with shape := v },
        shapeFieldRule v) ∧
    construct1 { shape := some v } nowISO =
      (match shapeFieldRule v with
        | some e => Except.error e
        | none => Except.ok (buildAll { shape := some v } nowISO)) := by
  constructor
  · simp only [setField, validateField, validate_shape_eq]
    cases hr : shapeFieldRule v with
    | some e => simp
    | none => simp [updateField]
  · have hck : checkFields { shape := some v } nowISO FIELD_ORDER =
        (match validate_shape v with
          | some e => some e
          | none => none) := by
      cases hs : validate_shape v with
      | some e =>
        simp [checkFields, FIELD_ORDER, validateField, effectiveValue,
          cfgField, defaultFor, validate_id, validate_format,
          validate_format_url, validate_type, validate_generated_by,
          validate_date, validate_rows, validate_columns,
          validate_matrix_type, validate_matrix_element_type,
          validate_data, validate_comment, hs, TYPE_CV, MATRIX_TYPE_CV,
          MATRIX_ELEMENT_TYPE_CV]
      | none =>
        simp [checkFields, FIELD_ORDER, validateField, effectiveValue,
          cfgField, defaultFor, validate_id, validate_format,
          validate_format_url, validate_type, validate_generated_by,
          validate_date, validate_rows, validate_columns,
          validate_matrix_type, validate_matrix_element_type,
          validate_data, validate_comment, hs, TYPE_CV, MATRIX_TYPE_CV,
          MATRIX_ELEMENT_TYPE_CV]
    unfold construct1
    rw [hck, validate_shape_eq]
    cases hr : shapeFieldRule v <;> simp

/-- C4: for each enum field (type, matrix_type, matrix_element_type)
the setter's outcome is exactly the spec's uniform enum rule at that
field's vocabulary — textual membership succeeds and stores the value
(so a subsequent read returns it unchanged), a textual non-member fails
with VocabularyViolation, a non-textual value fails with TypeMismatch
(the structural check coming before the vocabulary check), and a
rejection leaves the object unchanged. -/
theorem enum_field_contract (b : Biom) (v : Value) :
    (setField Field.type b v =
      (if (enumFieldRule TYPE_CV
            "type must be string (part of the controlled vocabulary)"
            "type must be part of the controlled vocabulary" v).isSome
        then b else { b with type := v },
        enumFieldRule TYPE_CV
          "type must be string (part of the controlled vocabulary)"
          "type must be part of the controlled vocabulary" v) ∧
      getField Field.type { b with type := v } = v) ∧
    (setField Field.matrix_type b v =
      (if (enumFieldRule MATRIX_TYPE_CV
            "matrix_type must be string (part of the controlled vocabulary: \x22dense\x22 or \x22sparse\x22)"
            "matrix_type must be part of the controlled vocabulary: \x22dense\x22 or \x22sparse\x22" v).isSome
        then b else { b with matrix_type := v },
        enumFieldRule MATRIX_TYPE_CV
          "matrix_type must be string (part of the controlled vocabulary: \x22dense\x22 or \x22sparse\x22)"
          "matrix_type must be part of the controlled vocabulary: \x22dense\x22 or \x22sparse\x22" v) ∧
      getField Field.matrix_type { b with matrix_type := v } = v) ∧
    (setField Field.matrix_element_type b v =
      (if (enumFieldRule MATRIX_ELEMENT_TYPE_CV
            "matrix_element_type must be string (part of the controlled vocabulary: \x22int\x22, \x22float\x22 or \x22unicode\x22)"
            "matrix_element_type must be part of the controlled vocabulary: \x22int\x22, \x22float\x22 or \x22unicode\x22" v).isSome
        then b else { b with matrix_element_type := v },
        enumFieldRule MATRIX_ELEMENT_TYPE_CV
          "matrix_element_type must be string (part of the controlled vocabulary: \x22int\x22, \x22float\x22 or \x22unicode\x22)"
          "matrix_element_type must be part of the controlled vocabulary: \x22int\x22, \x22float\x22 or \x22unicode\x22" v) ∧
      getField Field.matrix_element_type { b with matrix_element_type := v } = v) := by
  refine ⟨⟨?_, rfl⟩, ⟨?_, rfl⟩, ⟨?_, rfl⟩⟩
  · simp only [setField, validateField, validate_type_eq]
    cases hr : enumFieldRule TYPE_CV
        "type must be string (part of the controlled vocabulary)"
        "type must be part of the controlled vocabulary" v with
    | some e => simp
    | none => simp [updateField]
  · simp only [setField, validateField, validate_matrix_type_eq]
    cases hr : enumFieldRule MATRIX_TYPE_CV
        "matrix_type must be string (part of the controlled vocabulary: \x22dense\x22 or \x22sparse\x22)"
        "matrix_type must be part of the controlled vocabulary: \x22dense\x22 or \x22sparse\x22" v with
    | some e => simp
    | none => simp [updateField]
  · simp only [setField, validateField, validate_matrix_element_type_eq]
    cases hr : enumFieldRule MATRIX_ELEMENT_TYPE_CV
        "matrix_element_type must be string (part of the controlled vocabulary: \x22int\x22, \x22float\x22 or \x22unicode\x22)"
        "matrix_element_type must be part of the controlled vocabulary: \x22int\x22, \x22float\x22 or \x22unicode\x22" v with
    | some e => simp
    | none => simp [updateField]

/-- A fixed clock reading used by concrete witnesses. -/
def sampleNow : String := "2016-02-17T18:17:52.094Z"

/-- The table produced by a version 1 construction with no arguments at
the fixed clock reading. -/
def sampleBiom : Biom := buildAll {} sampleNow

/-- C1 counterexample: version 2's constructor, handed a type value
that fails the type validator, still produces an instance holding the
invalid value — construction does not fail. -/
theorem constructor2_accepts_invalid :
    (validate_type (Value.num 42)).isSome = true ∧
    construct2 { type := some (Value.num 42) } 0 =
      { id := Value.null,
        format := Value.str "Biological Observation Matrix 1.0.0",
        format_url := Value.str "http://biom-format.org",
        type := Value.num 42,
        generated_by := Value.str "biojs-io-biom v0.1.0",
        date := Value.num 0,
        rows := Value.arr [],
        columns := Value.arr [],
        matrix_type := Value.str "sparse",
        matrix_element_type := Value.str "float",
        shape := Value.arr [Value.num 0, Value.num 0],
        data := Value.arr [] } :=
  ⟨rfl, rfl⟩

/-- C1 (amended): for the version 1 constructor, if some field's
effective value fails that field's validator then construction fails —
no instance is produced — and the propagated error is the error of a
violated field (the first in assignment order); version 2's constructor
performs no validation and always produces an instance. -/
theorem constructor1_rejects_invalid (cfg : BiomConfig) (nowISO : String)
    (f : Field) (e : BiomError)
    (h : validateField f (effectiveValue cfg nowISO f) = some e) :
    (∀ b, construct1 cfg nowISO ≠ Except.ok b) ∧
    ∃ g e2, construct1 cfg nowISO = Except.error e2 ∧
      validateField g (effectiveValue cfg nowISO g) = some e2 := by
  obtain ⟨g, e2, h1, h2⟩ :=
    checkFields_some cfg nowISO FIELD_ORDER f e (field_mem_order f) h
  constructor
  · intro b hb
    obtain ⟨hnone, _⟩ := construct1_ok cfg nowISO b hb
    rw [hnone] at h1
    exact Option.noConfusion h1
  · refine ⟨g, e2, ?_, h2⟩
    unfold construct1
    rw [h1]

/-- Witness for the C1 theorem at a concrete invalid configuration. -/
theorem constructor1_rejects_invalid_witness :
    validateField Field.type
        (effectiveValue { type := some (Value.num 1) } sampleNow Field.type) =
      some (BiomError.typeMismatch
        "type must be string (part of the controlled vocabulary)") ∧
    ((∀ b, construct1 { type := some (Value.num 1) } sampleNow ≠
        Except.ok b) ∧
      ∃ g e2, construct1 { type := some (Value.num 1) } sampleNow =
          Except.error e2 ∧
        validateField g
            (effectiveValue { type := some (Value.num 1) } sampleNow g) =
          some e2) :=
  ⟨rfl, constructor1_rejects_invalid { type := some (Value.num 1) } sampleNow
    Field.type (BiomError.typeMismatch
      "type must be string (part of the controlled vocabulary)") rfl⟩

/-- C2 counterexample: a successful version 2 construction yields a
state whose type field holds a value outside TYPE_CV. -/
theorem constructor2_escapes_vocabulary :
    (construct2 { type := some (Value.str "bogus table") } 0).type =
      Value.str "bogus table" ∧ "bogus table" ∉ TYPE_CV :=
  ⟨rfl, by decide⟩

/-- C2 (amended): for version 1, in every state reachable by a
successful construction followed by any sequence of successful or
failed setter invocations, the fields type, matrix_type and
matrix_element_type hold members of their controlled vocabularies. -/
theorem cv_invariant_v1 (b : Biom) (h : Reachable1 b) :
    (∃ s, b.type = Value.str s ∧ s ∈ TYPE_CV) ∧
    (∃ s, b.matrix_type = Value.str s ∧ s ∈ MATRIX_TYPE_CV) ∧
    (∃ s, b.matrix_element_type = Value.str s ∧
      s ∈ MATRIX_ELEMENT_TYPE_CV) := by
  have hv := reachable1_valid b h
  exact ⟨validate_type_none b.type (hv Field.type),
    validate_matrix_type_none b.matrix_type (hv Field.matrix_type),
    validate_matrix_element_type_none b.matrix_element_type
      (hv Field.matrix_element_type)⟩

/-- Witness for the C2 theorem at a concrete reachable state. -/
theorem cv_invariant_v1_witness :
    Reachable1 sampleBiom ∧
    ((∃ s, sampleBiom.type = Value.str s ∧ s ∈ TYPE_CV) ∧
      (∃ s, sampleBiom.matrix_type = Value.str s ∧ s ∈ MATRIX_TYPE_CV) ∧
      (∃ s, sampleBiom.matrix_element_type = Value.str s ∧
        s ∈ MATRIX_ELEMENT_TYPE_CV)) :=
  ⟨Reachable1.constructed {} sampleNow sampleBiom rfl,
    cv_invariant_v1 sampleBiom
      (Reachable1.constructed {} sampleNow sampleBiom rfl)⟩

/-- C5 counterexample: version 2 constructed with date omitted holds
the numeric Date.now() value, which is not textual. -/
theorem constructor2_date_not_textual :
    (construct2 {} 1455735472094).date = Value.num 1455735472094 ∧
    Value.isStringV (construct2 {} 1455735472094).date = false :=
  ⟨rfl, rfl⟩

/-- C5 (amended): for version 1, when date is omitted or supplied as
the null sentinel, the constructed table's date is the textual ISO-8601
stamp the clock returned during construction (non-empty whenever the
stamp is); version 2 instead defaults date to the numeric Date.now()
value. -/
theorem constructor1_stamps_date (cfg : BiomConfig) (nowISO : String)
    (b : Biom) (hd : cfg.date = none ∨ cfg.date = some Value.null)
    (hok : construct1 cfg nowISO = Except.ok b) :
    b.date = Value.str nowISO ∧ b.date.isStringV = true ∧
    (nowISO ≠ "" → b.date ≠ Value.str "") := by
  obtain ⟨_, hb⟩ := construct1_ok cfg nowISO b hok
  have hdate : b.date = Value.str nowISO := by
    rw [hb]
    show effectiveValue cfg nowISO Field.date = Value.str nowISO
    rcases hd with hd | hd <;> simp [effectiveValue, hd]
  refine ⟨hdate, by rw [hdate]; rfl, ?_⟩
  intro hne hcontra
  rw [hdate] at hcontra
  exact hne (Value.str.inj hcontra)

/-- Witness for the C5 theorem at the no-argument construction. -/
theorem constructor1_stamps_date_witness :
    (({} : BiomConfig).date = none ∨
      ({} : BiomConfig).date = some Value.null) ∧
    construct1 {} sampleNow = Except.ok sampleBiom ∧
    (sampleBiom.date = Value.str sampleNow ∧
      sampleBiom.date.isStringV = true ∧
      (sampleNow ≠ "" → sampleBiom.date ≠ Value.str "")) :=
  ⟨Or.inl rfl, rfl,
    constructor1_stamps_date {} sampleNow sampleBiom (Or.inl rfl) rfl⟩

/-- C6: every failed field assignment leaves the table exactly in its
prior state — for each of the thirteen version 1 setters and for
version 2's id setter, a rejection returns the object unchanged, every
field still holding its previous value. -/
theorem failed_assignment_preserves_state (f : Field) (b : Biom)
    (v : Value) (b2 : Biom2) (w : Value) :
    ((setField f b v).2.isSome = true → (setField f b v).1 = b) ∧
    ((setId2 b2 w).2.isSome = true → (setId2 b2 w).1 = b2) := by
  constructor
  · intro hs
    cases hv : validateField f v with
    | some e => simp [setField, hv]
    | none => simp [setField, hv] at hs
  · intro hs
    cases hv : validate_id w with
    | some e => simp [setId2, hv]
    | none => simp [setId2, hv] at hs

/-- Witness for the C6 theorem at concrete failing assignments. -/
theorem failed_assignment_preserves_state_witness :
    ((setField Field.type sampleBiom (Value.num 1)).2.isSome = true ∧
      (setField Field.type sampleBiom (Value.num 1)).1 = sampleBiom) ∧
    ((setId2 (construct2 {} 0) (Value.num 1)).2.isSome = true ∧
      (setId2 (construct2 {} 0) (Value.num 1)).1 = construct2 {} 0) :=
  ⟨⟨rfl, (failed_assignment_preserves_state Field.type sampleBiom
      (Value.num 1) (construct2 {} 0) (Value.num 1)).1 rfl⟩,
    ⟨rfl, (failed_assignment_preserves_state Field.type sampleBiom
      (Value.num 1) (construct2 {} 0) (Value.num 1)).2 rfl⟩⟩

/-- Reinstalling a field's current value reproduces the object (the
setters overwrite the backing field with the same value). -/
theorem updateField_get_self (f : Field) (b : Biom) :
    updateField f b (getField f b) = b := by
  cases f <;> rfl

/-- C8: a successful write to a field changes only that field — every
other field reads back unchanged; the validator a setter runs depends
only on the candidate value, never on the object's current state; and
assigning a field's current valid value to itself succeeds and returns
the object unchanged. -/
theorem setter_frame_purity_idempotence (f g : Field) (b b2 : Biom)
    (v : Value) :
    ((setField f b v).2 = none → g ≠ f →
      getField g (setField f b v).1 = getField g b) ∧
    (setField f b v).2 = (setField f b2 v).2 ∧
    (validateField f (getField f b) = none →
      setField f b (getField f b) = (b, none)) := by
  refine ⟨?_, ?_, ?_⟩
  · intro hs hg
    cases hv : validateField f v with
    | some e => simp [setField, hv] at hs
    | none =>
      simp only [setField, hv]
      exact getField_update_ne g f b v hg
  · cases hv : validateField f v <;> simp [setField, hv]
  · intro hv
    simp only [setField, hv]
    rw [updateField_get_self]

/-- Witness for the C8 theorem at a concrete successful assignment. -/
theorem setter_frame_purity_idempotence_witness :
    ((setField Field.type sampleBiom (Value.str "Gene table")).2 = none ∧
      Field.format ≠ Field.type ∧
      getField Field.format
          (setField Field.type sampleBiom (Value.str "Gene table")).1 =
        getField Field.format sampleBiom) ∧
    (validateField Field.type (getField Field.type sampleBiom) = none ∧
      setField Field.type sampleBiom (getField Field.type sampleBiom) =
        (sampleBiom, none)) :=
  ⟨⟨rfl, by decide,
      (setter_frame_purity_idempotence Field.type Field.format sampleBiom
        sampleBiom (Value.str "Gene table")).1 rfl (by decide)⟩,
    ⟨rfl,
      (setter_frame_purity_idempotence Field.type Field.format sampleBiom
        sampleBiom (Value.str "Gene table")).2.2 rfl⟩⟩

/-- Spec-side predicate: an element shaped as a (row, column, value)
triple of the sparse encoding. -/
def isTripleV : Value → Bool
  | .arr [_, _, _] => true
  | _ => false

/-- Spec-side predicate: a data payload in the sparse encoding, an
ordered sequence of (row, column, value) triples. -/
def isSparseTriples : Value → Bool
  | .arr xs => xs.all isTripleV
  | _ => false

/-- A configuration pairing the sparse tag with a data payload that is
not a sequence of triples. -/
def mismatchConfig : BiomConfig :=
  { matrix_type := some (Value.str "sparse"),
    data := some (Value.arr [Value.num 1]) }

/-- The table version 1 builds from that configuration. -/
def mismatchBiom : Biom := buildAll mismatchConfig sampleNow

/-- C9 counterexample: a version 1 construction succeeds with
matrix_type sparse while data holds an element that is not a
(row, column, value) triple, so matrix_type does not describe the
encoding of data's contents. -/
theorem sparse_data_mismatch :
    construct1 mismatchConfig sampleNow = Except.ok mismatchBiom ∧
    mismatchBiom.matrix_type = Value.str "sparse" ∧
    isSparseTriples mismatchBiom.data = false :=
  ⟨rfl, rfl, rfl⟩

/-- C9 (amended): in every reachable version 1 state, matrix_type is a
member of its controlled vocabulary and data is a sequence, but the
contents of data are not validated against matrix_type — the model
guarantees no more than sequencehood for data. -/
theorem matrix_type_data_invariant (b : Biom) (h : Reachable1 b) :
    (∃ s, b.matrix_type = Value.str s ∧ s ∈ MATRIX_TYPE_CV) ∧
    (∃ xs, b.data = Value.arr xs) := by
  have hv := reachable1_valid b h
  exact ⟨validate_matrix_type_none b.matrix_type (hv Field.matrix_type),
    validate_data_none b.data (hv Field.data)⟩

/-- Witness for the C9 theorem at a concrete reachable state. -/
theorem matrix_type_data_invariant_witness :
    Reachable1 mismatchBiom ∧
    ((∃ s, mismatchBiom.matrix_type = Value.str s ∧
        s ∈ MATRIX_TYPE_CV) ∧
      (∃ xs, mismatchBiom.data = Value.arr xs)) :=
  ⟨Reachable1.constructed mismatchConfig sampleNow mismatchBiom rfl,
    matrix_type_data_invariant mismatchBiom
      (Reachable1.constructed mismatchConfig sampleNow mismatchBiom rfl)⟩

/-- Hypothesis shape for the round-trip law: whatever the configuration
supplies for a field passes that field's validator. -/
def suppliedValid (cfg : BiomConfig) (f : Field) : Prop :=
  ∀ v, cfgField f cfg = some v → validateField f v = none

/-- Every DEFAULT_BIOM entry other than the date placeholder passes its
field's validator. -/
theorem default_valid (f : Field) (h : f ≠ Field.date) :
    validateField f (defaultFor f) = none := by
  cases f <;> first | rfl | exact absurd rfl h

/-- For every field other than date, the effective constructor value is
the supplied option with the DEFAULT_BIOM fallback. -/
theorem effectiveValue_ne_date (cfg : BiomConfig) (nowISO : String)
    (f : Field) (h : f ≠ Field.date) :
    effectiveValue cfg nowISO f = (cfgField f cfg).getD (defaultFor f) := by
  cases f <;> first | rfl | exact absurd rfl h

/-- When all supplied values are valid, every effective constructor
value passes its field's validator. -/
theorem effective_valid (cfg : BiomConfig) (nowISO : String)
    (h : ∀ f, suppliedValid cfg f) (f : Field) :
    validateField f (effectiveValue cfg nowISO f) = none := by
  by_cases hf : f = Field.date
  · subst hf
    cases hd : cfg.date with
    | none => simp [effectiveValue, hd, validateField, validate_date]
    | some d =>
      have hv := h Field.date d hd
      cases d with
      | null => simp [validateField, validate_date] at hv
      | str s => simp [effectiveValue, hd, validateField, validate_date]
      | bool bb => simp [validateField, validate_date] at hv
      | num q => simp [validateField, validate_date] at hv
      | arr xs => simp [validateField, validate_date] at hv
  · rw [effectiveValue_ne_date cfg nowISO f hf]
    cases hc : cfgField f cfg with
    | none => simpa using default_valid f hf
    | some v => simpa using h f v hc

/-- C7: a version 1 construction whose supplied values are all valid
succeeds, and reading every settable field reproduces the explicit
entries verbatim while every omitted field shows the documented
default: id and comment absent, the fixed BIOM 1.0.0 format and
format_url identifiers, type OTU table, the fixed producer identifier
for generated_by, matrix_type sparse, matrix_element_type float, shape
(0,0), empty rows, columns and data, and for date the clock's current
ISO-8601 stamp. -/
theorem constructor1_round_trip (cfg : BiomConfig) (nowISO : String)
    (h : ∀ f, suppliedValid cfg f) :
    ∃ b, construct1 cfg nowISO = Except.ok b ∧
      b.id = cfg.id.getD Value.null ∧
      b.format = cfg.format.getD
        (Value.str "Biological Observation Matrix 1.0.0") ∧
      b.format_url = cfg.format_url.getD
        (Value.str "http://biom-format.org") ∧
      b.type = cfg.type.getD (Value.str "OTU table") ∧
      b.generated_by = cfg.generated_by.getD
        (Value.str "biojs-io-biom v0.1.0") ∧
      b.date = (match cfg.date with
        | none => Value.str nowISO
        | some d => d) ∧
      b.rows = cfg.rows.getD (Value.arr []) ∧
      b.columns = cfg.columns.getD (Value.arr []) ∧
      b.matrix_type = cfg.matrix_type.getD (Value.str "sparse") ∧
      b.matrix_element_type = cfg.matrix_element_type.getD
        (Value.str "float") ∧
      b.shape = cfg.shape.getD (Value.arr [Value.num 0, Value.num 0]) ∧
      b.data = cfg.data.getD (Value.arr []) ∧
      b.comment = cfg.comment.getD Value.null := by
  have hck : checkFields cfg nowISO FIELD_ORDER = none :=
    checkFields_none_of cfg nowISO FIELD_ORDER
      (fun f _ => effective_valid cfg nowISO h f)
  have hdate : (buildAll cfg nowISO).date = (match cfg.date with
      | none => Value.str nowISO
      | some d => d) := by
    show effectiveValue cfg nowISO Field.date = _
    cases hd : cfg.date with
    | none => simp [effectiveValue, hd]
    | some d =>
      have hv := h Field.date d hd
      cases d with
      | null => simp [validateField, validate_date] at hv
      | str s => simp [effectiveValue, hd]
      | bool bb => simp [validateField, validate_date] at hv
      | num q => simp [validateField, validate_date] at hv
      | arr xs => simp [validateField, validate_date] at hv
  refine ⟨buildAll cfg nowISO, ?_, rfl, rfl, rfl, rfl, rfl, hdate, rfl,
    rfl, rfl, rfl, rfl, rfl, rfl⟩
  unfold construct1
  rw [hck]

/-- Witness for the C7 theorem at the no-argument construction. -/
theorem constructor1_round_trip_witness :
    (∀ f, suppliedValid ({} : BiomConfig) f) ∧
    (∃ b, construct1 {} sampleNow = Except.ok b ∧
      b.type = Value.str "OTU table" ∧
      b.matrix_type = Value.str "sparse" ∧
      b.shape = Value.arr [Value.num 0, Value.num 0] ∧
      b.rows = Value.arr [] ∧ b.data = Value.arr [] ∧
      b.date = Value.str sampleNow) := by
  have hs : ∀ f, suppliedValid ({} : BiomConfig) f := by
    intro f v hv
    cases f <;> exact Option.noConfusion hv
  refine ⟨hs, ?_⟩
  obtain ⟨b, h1, h2, h3, h4, h5, h6, h7, h8, h9, h10, h11, h12, h13, h14⟩ :=
    constructor1_round_trip {} sampleNow hs
  exact ⟨b, h1, h5, h10, h12, h8, h13, h7⟩

/-- Packs twelve explicitly supplied field values into a version 1
configuration (comment left unsupplied, as version 2 has no comment). -/
def mkConfig1 (i fo fu ty ge da ro co mt met sh dt : Value) : BiomConfig :=
  { id := some i, format := some fo, format_url := some fu,
    type := some ty, generated_by := some ge, date := some da,
    rows := some ro, columns := some co, matrix_type := some mt,
    matrix_element_type := some met, shape := some sh, data := some dt }

/-- Packs the same twelve field values into a version 2 configuration. -/
def mkConfig2 (i fo fu ty ge da ro co mt met sh dt : Value) : BiomConfig2 :=
  { id := some i, format := some fo, format_url := some fu,
    type := some ty, generated_by := some ge, date := some da,
    rows := some ro, columns := some co, matrix_type := some mt,
    matrix_element_type := some met, shape := some sh, data := some dt }

/-- C10: when the twelve fields common to both versions are all
explicitly supplied with valid values, both constructors succeed and
their read accessors agree on every one of the twelve fields. -/
theorem constructors_agree (i fo fu ty ge da ro co mt met sh dt : Value)
    (nowISO : String) (nowMs : Int)
    (h1 : validate_id i = none) (h2 : validate_format fo = none)
    (h3 : validate_format_url fu = none) (h4 : validate_type ty = none)
    (h5 : validate_generated_by ge = none) (h6 : validate_date da = none)
    (h7 : validate_rows ro = none) (h8 : validate_columns co = none)
    (h9 : validate_matrix_type mt = none)
    (h10 : validate_matrix_element_type met = none)
    (h11 : validate_shape sh = none) (h12 : validate_data dt = none) :
    ∃ b1, construct1 (mkConfig1 i fo fu ty ge da ro co mt met sh dt)
        nowISO = Except.ok b1 ∧
      (let b2 := construct2 (mkConfig2 i fo fu ty ge da ro co mt met sh dt) nowMs;
        b1.id = b2.id ∧ b1.format = b2.format ∧
        b1.format_url = b2.format_url ∧ b1.type = b2.type ∧
        b1.generated_by = b2.generated_by ∧ b1.date = b2.date ∧
        b1.rows = b2.rows ∧ b1.columns = b2.columns ∧
        b1.matrix_type = b2.matrix_type ∧
        b1.matrix_element_type = b2.matrix_element_type ∧
        b1.shape = b2.shape ∧ b1.data = b2.data) := by
  have hsup : ∀ f, suppliedValid (mkConfig1 i fo fu ty ge da ro co mt met sh dt) f := by
    intro f v hv
    cases f with
    | id => cases hv; exact h1
    | format => cases hv; exact h2
    | format_url => cases hv; exact h3
    | type => cases hv; exact h4
    | generated_by => cases hv; exact h5
    | date => cases hv; exact h6
    | rows => cases hv; exact h7
    | columns => cases hv; exact h8
    | matrix_type => cases hv; exact h9
    | matrix_element_type => cases hv; exact h10
    | shape => cases hv; exact h11
    | data => cases hv; exact h12
    | comment => exact Option.noConfusion hv
  obtain ⟨b, hok, e1, e2, e3, e4, e5, e6, e7, e8, e9, e10, e11, e12, e13⟩ :=
    constructor1_round_trip (mkConfig1 i fo fu ty ge da ro co mt met sh dt)
      nowISO hsup
  exact ⟨b, hok, e1, e2, e3, e4, e5, e6, e7, e8, e9, e10, e11, e12⟩

/-- Witness for the C10 theorem at concrete valid field values. -/
theorem constructors_agree_witness :
    validate_id Value.null = none ∧
    validate_format (Value.str "f") = none ∧
    validate_format_url (Value.str "u") = none ∧
    validate_type (Value.str "Taxon table") = none ∧
    validate_generated_by (Value.str "g") = none ∧
    validate_date (Value.str "D") = none ∧
    validate_rows (Value.arr []) = none ∧
    validate_columns (Value.arr []) = none ∧
    validate_matrix_type (Value.str "dense") = none ∧
    validate_matrix_element_type (Value.str "int") = none ∧
    validate_shape (Value.arr [Value.num 0, Value.num 0]) = none ∧
    validate_data (Value.arr []) = none ∧
    (∃ b1, construct1 (mkConfig1 Value.null (Value.str "f")
        (Value.str "u") (Value.str "Taxon table") (Value.str "g")
        (Value.str "D") (Value.arr []) (Value.arr [])
        (Value.str "dense") (Value.str "int")
        (Value.arr [Value.num 0, Value.num 0]) (Value.arr []))
        sampleNow = Except.ok b1 ∧
      (let b2 := construct2 (mkConfig2 Value.null (Value.str "f")
          (Value.str "u") (Value.str "Taxon table") (Value.str "g")
          (Value.str "D") (Value.arr []) (Value.arr [])
          (Value.str "dense") (Value.str "int")
          (Value.arr [Value.num 0, Value.num 0]) (Value.arr [])) 7;
        b1.id = b2.id ∧ b1.format = b2.format ∧
        b1.format_url = b2.format_url ∧ b1.type = b2.type ∧
        b1.generated_by = b2.generated_by ∧ b1.date = b2.date ∧
        b1.rows = b2.rows ∧ b1.columns = b2.columns ∧
        b1.matrix_type = b2.matrix_type ∧
        b1.matrix_element_type = b2.matrix_element_type ∧
        b1.shape = b2.shape ∧ b1.data = b2.data)) :=
  ⟨rfl, rfl, rfl, rfl, rfl, rfl, rfl, rfl, rfl, rfl, by decide, rfl,
    constructors_agree Value.null (Value.str "f") (Value.str "u")
      (Value.str "Taxon table") (Value.str "g") (Value.str "D")
      (Value.arr []) (Value.arr []) (Value.str "dense")
      (Value.str "int") (Value.arr [Value.num 0, Value.num 0])
      (Value.arr []) sampleNow 7 rfl rfl rfl rfl rfl rfl rfl rfl rfl rfl
      (by decide) rfl⟩

end BiojsIoBiom
